import Mathlib

/-!
# Verification of the Icon Pelikan core (`icon_processor.py`)

Shallow embedding of the image-transform pipeline of `icon_processor.py`:
`create_icon` (mask, resample, composite), `export_iconset` (fixed 14-file
manifest), and `to_icns` (external-tool invocation).

Images are modelled at the pixel level: a pixel grid is a total function
from coordinates to an RGBA quadruple of naturals (8-bit channels are
expressed by the bound 255 where a proof needs it).  Mode `L` images store
their single gray band duplicated across the four modelled channels; only
that band is ever read through `Img.band`.

The Pillow primitives that `icon_processor.py` calls are embedded from
Pillow's documented and published behaviour:

* `Image.paste` with a mask blends with the exact fixed-point formula of
  Pillow's C core (`MULDIV255`), under which a mask value of 255 copies the
  source pixel as-is — including its alpha — and a mask value of 0 keeps
  the destination pixel;
* `Image.alpha_composite` follows Pillow's source-over compositing with its
  `src.a = 0` shortcut; the fixed-point rounding of the general branch is
  modelled by exact integer arithmetic rounded to nearest, which agrees
  with Pillow on every case exercised by a theorem below (compositing over
  a fully transparent destination);
* `Image.resize` returns a copy when the requested size equals the current
  size (Pillow's short-circuit); a genuine resample runs a floating-point
  separable kernel whose pixel values are modelled by nearest sampling —
  only the output geometry of this branch is relied upon by any theorem;
* `ImageDraw.rounded_rectangle` follows the branch structure of Pillow's
  Python implementation (corner-diameter clamping against the box sides,
  degeneration to `ellipse` when both axes are fully joined, to
  `rectangle` when the radius is zero); the hard-edged rasterised regions
  of `ellipse`, `rectangle` and the general rounded body are modelled
  geometrically (ImageDraw does not antialias).

The float multiplication `icon_px * scale` is modelled exactly over `ℚ`;
`int()` on a non-negative value is `Int.toNat ∘ Int.floor`.
-/

/-- An RGBA pixel: four 8-bit channels, modelled as naturals. -/
structure RGBA where
  r : Nat
  g : Nat
  b : Nat
  a : Nat
deriving DecidableEq, Repr

/-- The two Pillow image modes used by `icon_processor.py`. -/
inductive Mode where
  | RGBA : Mode
  | L : Mode
deriving DecidableEq, Repr

/-- An in-memory bitmap: mode, size, and a total pixel-grid function.
Coordinates outside `[0, width) × [0, height)` are irrelevant to every
operation but keep the grid total. -/
structure Img where
  mode : Mode
  width : Nat
  height : Nat
  px : Nat → Nat → RGBA

/-- All four channels of every pixel are 8-bit values. -/
def Img.Bounded (im : Img) : Prop :=
  ∀ x y, (im.px x y).r ≤ 255 ∧ (im.px x y).g ≤ 255 ∧
    (im.px x y).b ≤ 255 ∧ (im.px x y).a ≤ 255

/-- The single band of a mode-`L` image (stored duplicated; band `r` read). -/
def Img.band (im : Img) (x y : Nat) : Nat := (im.px x y).r

/-- `Image.new(mode, (w, h), color)`: a constant-colour image. -/
def Img.new (m : Mode) (w h : Nat) (c : RGBA) : Img :=
  ⟨m, w, h, fun _ _ => c⟩

/-- Pillow's `MULDIV255(a, b)` fixed-point primitive:
`((a * b + 128) * 257) >> 16`, an exact round-to-nearest division of
`a * b` by 255 for 8-bit operands. -/
def muldiv255 (a b : Nat) : Nat := ((a * b + 128) * 257) / 65536

/-- One channel of Pillow's masked-paste blend
`BLEND(mask, dst, src) = MULDIV255(dst, 255 - mask) + MULDIV255(src, mask)`. -/
def blendChannel (d s m : Nat) : Nat :=
  muldiv255 d (255 - m) + muldiv255 s m

/-- Core of `Image.paste(src, (ox, oy), mask)`: inside the pasted box the
destination is blended with the source under the mask band; outside it the
destination is untouched.  The box of the calls in `icon_processor.py`
always lies inside the destination, so Pillow's clipping never fires. -/
def Img.pasteCore (dest src : Img) (maskBand : Nat → Nat → Nat)
    (ox oy : Nat) : Img :=
  ⟨dest.mode, dest.width, dest.height, fun x y =>
    if ox ≤ x ∧ x < ox + src.width ∧ oy ≤ y ∧ y < oy + src.height then
      let s := src.px (x - ox) (y - oy)
      let d := dest.px x y
      let m := maskBand (x - ox) (y - oy)
      ⟨blendChannel d.r s.r m, blendChannel d.g s.g m,
       blendChannel d.b s.b m, blendChannel d.a s.a m⟩
    else dest.px x y⟩

/-- `dest.paste(src, (ox, oy), mask)` with a mode-`L` mask image. -/
def Img.pasteL (dest src mask : Img) (ox oy : Nat) : Img :=
  dest.pasteCore src mask.band ox oy

/-- `dest.paste(src, (ox, oy), src)` with an RGBA mask image: Pillow uses
the mask's alpha band.  In `create_icon` the mask is the source itself. -/
def Img.pasteRGBA (dest src : Img) (ox oy : Nat) : Img :=
  dest.pasteCore src (fun x y => (src.px x y).a) ox oy

/-- One pixel of `Image.alpha_composite`: `src` over `dst`.  Pillow
short-circuits to the destination when the source alpha is 0; otherwise a
fixed-point source-over blend, modelled here by exact integer arithmetic
rounded to nearest (exact for the fully-transparent destinations the
theorems below exercise). -/
def overPixel (src dst : RGBA) : RGBA :=
  if src.a = 0 then dst
  else
    let outa255 := src.a * 255 + dst.a * (255 - src.a)
    ⟨(src.r * src.a * 255 + dst.r * dst.a * (255 - src.a) + outa255 / 2) / outa255,
     (src.g * src.a * 255 + dst.g * dst.a * (255 - src.a) + outa255 / 2) / outa255,
     (src.b * src.a * 255 + dst.b * dst.a * (255 - src.a) + outa255 / 2) / outa255,
     (outa255 + 127) / 255⟩

/-- `dest.alpha_composite(src)`: composites `src` over `dest` in place;
both operands of the call in `create_icon` are full-canvas RGBA images of
the same size. -/
def Img.alphaComposite (dest src : Img) : Img :=
  ⟨dest.mode, dest.width, dest.height, fun x y =>
    overPixel (src.px x y) (dest.px x y)⟩

/-- `Image.convert(mode)`: converting to the current mode copies the image;
`L → RGBA` duplicates the gray band with full alpha; `RGBA → L` is the
ITU-R 601 luma (unused by any theorem, kept for totality). -/
def Img.convert (im : Img) (m : Mode) : Img :=
  if im.mode = m then im
  else match m with
    | Mode.RGBA =>
        ⟨Mode.RGBA, im.width, im.height, fun x y =>
          let v := im.band x y
          ⟨v, v, v, 255⟩⟩
    | Mode.L =>
        ⟨Mode.L, im.width, im.height, fun x y =>
          let p := im.px x y
          let v := (p.r * 299 + p.g * 587 + p.b * 114) / 1000
          ⟨v, v, v, v⟩⟩

/-- `Image.resize((w, h), LANCZOS)`: Pillow returns a copy when the
requested size equals the current size.  Otherwise it resamples through a
floating-point separable Lanczos kernel; those pixel values are modelled by
nearest sampling — no theorem below depends on the resampled pixel values
of this branch, only on the output geometry. -/
def Img.resize (im : Img) (w h : Nat) : Img :=
  if im.width = w ∧ im.height = h then im
  else ⟨im.mode, w, h, fun x y => im.px (x * im.width / w) (y * im.height / h)⟩

/-! ## Python exceptions and ImageDraw -/

/-- The Python exception kinds raised (or raisable) by `icon_processor.py`
and the library calls it makes. -/
inductive PyError where
  | valueError (msg : String) : PyError
  | fileNotFoundError (msg : String) : PyError
  | runtimeError (msg : String) : PyError
  | calledProcessError (returncode : Nat)
      (output : Option String) (stderr : Option String) : PyError
deriving DecidableEq, Repr

/-- Fill a hard-edged region of an image with a single ink value (gray ink
duplicated across the modelled channels, as for mode `L`). -/
def drawFill (im : Img) (region : Nat → Nat → Bool) (ink : Nat) : Img :=
  ⟨im.mode, im.width, im.height, fun x y =>
    if region x y then ⟨ink, ink, ink, ink⟩ else im.px x y⟩

/-- The rasterised inscribed disc of `ImageDraw.ellipse((0, 0, n, n))`:
points within the circle of centre `(n/2, n/2)` and radius `n/2` in
Pillow's integer coordinate model (geometric model of the hard-edged
rasteriser). -/
def insideCircleBox (n x y : Nat) : Bool :=
  decide (((2 * x : Int) - n) ^ 2 + ((2 * y : Int) - n) ^ 2 ≤ (n : Int) ^ 2)

/-- `ImageDraw.ellipse((0, 0, n, n), fill=255)` on `im`. -/
def drawEllipse (im : Img) (n : Nat) : Img :=
  drawFill im (insideCircleBox n) 255

/-- The filled box of `ImageDraw.rectangle((x0, y0, x1, y1))`: Pillow's
rectangle includes both corners. -/
def insideRectBox (x0 y0 x1 y1 x y : Nat) : Bool :=
  decide (x0 ≤ x ∧ x ≤ x1 ∧ y0 ≤ y ∧ y ≤ y1)

/-- `ImageDraw.rectangle((x0, y0, x1, y1), fill=255)` on `im`. -/
def drawRectangle (im : Img) (x0 y0 x1 y1 : Nat) : Img :=
  drawFill im (insideRectBox x0 y0 x1 y1) 255

/-- The general (non-degenerate) filled rounded-rectangle body on the box
`(0, 0, n, n)` with corner radius `r`: the central cross of rectangles
together with the four quarter-disc corners that Pillow draws as
pieslices, modelled geometrically. -/
def insideRoundedBody (n r x y : Nat) : Bool :=
  let cx : Int := if 2 * x ≤ n then (r : Int) else (n : Int) - r
  let cy : Int := if 2 * y ≤ n then (r : Int) else (n : Int) - r
  decide ((r ≤ x ∧ x ≤ n - r) ∨ (r ≤ y ∧ y ≤ n - r) ∨
    ((x : Int) - cx) ^ 2 + ((y : Int) - cy) ^ 2 ≤ (r : Int) ^ 2)

/-- The drawing of `ImageDraw.rounded_rectangle((0, 0, n, n), radius=r,
fill=255)` on `im`, following the branch structure of Pillow's Python
implementation for the square box used by `create_icon`:

* the corner diameter `d = 2r` is compared against each box side minus
  one (`full_x = d >= x1 - x0 - 1`); a joined axis clamps `d` to that
  side.  On a square box `full_x` forces `full_y` (the clamped `d = n`
  satisfies `d >= n - 1`) and `full_y` is otherwise identical to
  `full_x`, so the two flags coincide and are written as the single
  comparison below.  Both axes joined degenerates to `ellipse` on the
  same box; a zero diameter degenerates to `rectangle`;
* otherwise the rounded body is filled. -/
def roundedRectangleImg (n r : Nat) (im : Img) : Img :=
  if (2 * r : Int) ≥ (n : Int) - 1 then drawEllipse im n
  else if 2 * r = 0 then drawRectangle im 0 0 n n
  else drawFill im (insideRoundedBody n r) 255

/-- `ImageDraw.rounded_rectangle` with the box validation that Pillow runs
before it draws anything: for the box `(0, 0, n, n)` the `x1 ≥ x0` /
`y1 ≥ y0` `ValueError` checks are vacuous, then the drawing happens. -/
def roundedRectangleFilled (n r : Nat) (im : Img) : Except PyError Img :=
  if (n : Int) < 0 then
    Except.error (PyError.valueError "x1 must be greater than or equal to x0")
  else Except.ok (roundedRectangleImg n r im)

/-! ## `create_icon` -/

/-- The `shape` argument of `create_icon`. -/
inductive Shape where
  | rounded : Shape
  | circle : Shape
deriving DecidableEq, Repr

/-- The keyword parameters of `create_icon` (`IconParameters` of the
specification).  `scale` is the float parameter, modelled exactly over
`ℚ`; `background = none` is Python's `None`. -/
structure IconParams where
  icon_px : Nat
  scale : ℚ
  radius : Nat
  shape : Shape
  background : Option RGBA

/-- A parameter set the specification calls valid. -/
def IconParams.Valid (p : IconParams) : Prop :=
  0 < p.icon_px ∧ 0 < p.scale ∧ p.scale ≤ 1

/-- `inner_px = int(icon_px * scale)`: Python truncation of the
non-negative product, i.e. `⌊icon_px * scale⌋`. -/
def innerPx (p : IconParams) : Nat :=
  (⌊(p.icon_px : ℚ) * p.scale⌋).toNat

/-- The canvas after the background step of `create_icon`: a transparent
`icon_px × icon_px` RGBA canvas, with a full-canvas `Image.new` of the
background colour alpha-composited over it when `background` is given. -/
def baseCanvas (p : IconParams) : Img :=
  let canvas := Img.new Mode.RGBA p.icon_px p.icon_px ⟨0, 0, 0, 0⟩
  match p.background with
  | none => canvas
  | some bgc =>
      canvas.alphaComposite (Img.new Mode.RGBA p.icon_px p.icon_px bgc)

/-- `img = source.convert("RGBA").resize((inner_px, inner_px), LANCZOS)`. -/
def resizedInner (source : Img) (p : IconParams) : Img :=
  (source.convert Mode.RGBA).resize (innerPx p) (innerPx p)

/-- The shape mask of `create_icon`: a blank `inner_px × inner_px` mode-`L`
image, drawn on with `rounded_rectangle` for `"rounded"` and with
`ellipse` for `"circle"`. -/
def makeMask (shape : Shape) (n r : Nat) : Except PyError Img :=
  let blank := Img.new Mode.L n n ⟨0, 0, 0, 0⟩
  match shape with
  | Shape.rounded => roundedRectangleFilled n r blank
  | Shape.circle => Except.ok (drawEllipse blank n)

/-- The mask built by `create_icon` for parameter set `p`. -/
def theMask (p : IconParams) : Except PyError Img :=
  makeMask p.shape (innerPx p) p.radius

/-- `rounded = Image.new("RGBA", …, (0,0,0,0)); rounded.paste(img, mask=mask)`
for a given mask image. -/
def maskedWith (source : Img) (p : IconParams) (mask : Img) : Img :=
  (Img.new Mode.RGBA (innerPx p) (innerPx p) ⟨0, 0, 0, 0⟩).pasteL
    (resizedInner source p) mask 0 0

/-- The masked inner image `rounded` of `create_icon`. -/
def maskedInner (source : Img) (p : IconParams) : Except PyError Img :=
  (theMask p).map (maskedWith source p)

/-- `xy = (icon_px - inner_px) // 2` (non-negative under valid parameters,
where `inner_px = ⌊icon_px * scale⌋ ≤ icon_px`). -/
def centerOff (p : IconParams) : Nat :=
  (p.icon_px - innerPx p) / 2

/-- `create_icon(source, icon_px, scale, radius, shape, background)`:
the full pipeline, returning the composed canvas or the Python exception
raised. -/
def create_icon (source : Img) (p : IconParams) : Except PyError Img :=
  (maskedInner source p).map fun rounded =>
    (baseCanvas p).pasteRGBA rounded (centerOff p) (centerOff p)

/-! ## `export_iconset` -/

/-- `APPLE_SIZES = [16, 32, 64, 128, 256, 512, 1024]`. -/
def APPLE_SIZES : List Nat := [16, 32, 64, 128, 256, 512, 1024]

/-- `iconset / name`: path join. -/
def joinPath (dir name : String) : String := dir ++ "/" ++ name

/-- `f"icon_\x7bsize\x7dx\x7bsize\x7d.png"`. -/
def iconName (size : Nat) : String :=
  "icon_" ++ toString size ++ "x" ++ toString size ++ ".png"

/-- `f"icon_\x7bsize\x7dx\x7bsize\x7d@2x.png"`. -/
def iconName2x (size : Nat) : String :=
  "icon_" ++ toString size ++ "x" ++ toString size ++ "@2x.png"

/-- The ordered file writes of the `export_iconset` loop: for each size the
`icon_NxN.png` resize to `N × N` is saved, then the `@2x` resize to
`2N × 2N`. -/
def iconsetWrites (img : Img) (dest : String) : List (String × Img) :=
  APPLE_SIZES.flatMap fun size =>
    [(joinPath dest (iconName size), img.resize size size),
     (joinPath dest (iconName2x size), img.resize (size * 2) (size * 2))]

/-- A caller-visible filesystem: the set of existing directories and the
file contents at each path. -/
structure FS where
  dirs : List String
  files : String → Option Img

/-- Saving an image at a path: creates or overwrites that file, touching
nothing else. -/
def FS.write (fs : FS) (name : String) (im : Img) : FS :=
  { fs with files := fun n => if n = name then some im else fs.files n }

/-- `dest.mkdir(parents=True, exist_ok=True)`: creates the directory
(recursively) if missing; an existing directory is not an error and is
left as is. -/
def FS.mkdirP (fs : FS) (d : String) : FS :=
  { fs with dirs := if d ∈ fs.dirs then fs.dirs else d :: fs.dirs }

/-- `export_iconset(img, dest)`: makes `dest`, performs the 14 manifest
writes in order, and returns `dest`. -/
def export_iconset (img : Img) (dest : String) (fs : FS) : FS × String :=
  let fs1 := fs.mkdirP dest
  ((iconsetWrites img dest).foldl (fun acc pr => acc.write pr.1 pr.2) fs1,
   dest)

/-! ## `to_icns` -/

/-- What the external `iconutil` invocation does in the environment the
program runs in: either the binary cannot be located/executed (Python
raises `FileNotFoundError` from `subprocess.run`), or it runs to
completion with an exit status and whatever it printed on the parent's
stdout/stderr streams. -/
inductive ToolRun where
  | launchFailure : ToolRun
  | completed (returncode : Nat) (stdout stderr : String) : ToolRun
deriving DecidableEq, Repr

/-- `subprocess.run(["iconutil", "-c", "icns", str(iconset)], check=True)`:
no `capture_output`, so the child's stdout/stderr go to the parent's
streams and the `CalledProcessError` raised on a non-zero exit has
`output = None` and `stderr = None`; a launch failure raises
`FileNotFoundError` out of `subprocess.run` itself. -/
def subprocessRunCheck (tool : ToolRun) : Except PyError Unit :=
  match tool with
  | ToolRun.launchFailure =>
      Except.error (PyError.fileNotFoundError "iconutil")
  | ToolRun.completed 0 _ _ => Except.ok ()
  | ToolRun.completed (code + 1) _ _ =>
      Except.error (PyError.calledProcessError (code + 1) none none)

/-- The stem of a path component with its last suffix removed, as
`Path.with_suffix` computes it (a lone leading-dot name has no suffix). -/
def dropLastSuffix (name : String) : String :=
  match name.splitOn "." with
  | [] => name
  | [_] => name
  | "" :: [_] => name
  | ps => String.intercalate "." ps.dropLast

/-- `iconset.with_suffix(".icns")`: replace the last component's suffix
with `.icns`. -/
def withSuffixIcns (p : String) : String :=
  match (p.splitOn "/").reverse with
  | [] => p ++ ".icns"
  | last :: revInit =>
      String.intercalate "/" ((dropLastSuffix last :: revInit).reverse)
        ++ ".icns"

/-- The message of the `RuntimeError` that `to_icns` raises on a non-zero
exit: it interpolates `str(e)` of the `CalledProcessError`, which names
the command and the exit status but none of the child's output (quoting
of the Python list repr omitted). -/
def conversionFailedMsg (iconset : String) (code : Nat) : String :=
  "iconutil command failed: Command iconutil -c icns " ++ iconset ++
    " returned non-zero exit status " ++ toString code ++
    ". Make sure Xcode Command Line Tools are installed."

/-- The environment `to_icns` runs against: the behaviour of the external
tool and whether the expected `.icns` file exists afterwards. -/
structure IcnsEnv where
  tool : ToolRun
  producesIcns : Bool
deriving DecidableEq, Repr

/-- `to_icns(iconset)`: runs `iconutil`; only `CalledProcessError` is
caught and re-raised as a `RuntimeError`, so a launch failure propagates
as the `FileNotFoundError` it is; after a zero exit the expected output
path is verified to exist and a missing file raises `FileNotFoundError`. -/
def to_icns (iconset : String) (env : IcnsEnv) : Except PyError String :=
  let icns_path := withSuffixIcns iconset
  match subprocessRunCheck env.tool with
  | Except.error (PyError.calledProcessError code _ _) =>
      Except.error (PyError.runtimeError (conversionFailedMsg iconset code))
  | Except.error e => Except.error e
  | Except.ok () =>
      if env.producesIcns then Except.ok icns_path
      else Except.error (PyError.fileNotFoundError
        ("Expected .icns file was not created at " ++ icns_path))

/-! ## Basic lemmas about the embedding -/

lemma Img.extEq {im1 im2 : Img} (hm : im1.mode = im2.mode)
    (hw : im1.width = im2.width) (hh : im1.height = im2.height)
    (hp : im1.px = im2.px) : im1 = im2 := by
  cases im1; cases im2; simp_all

@[simp] lemma Img.new_mode (m : Mode) (w h : Nat) (c : RGBA) :
    (Img.new m w h c).mode = m := rfl

@[simp] lemma Img.new_width (m : Mode) (w h : Nat) (c : RGBA) :
    (Img.new m w h c).width = w := rfl

@[simp] lemma Img.new_height (m : Mode) (w h : Nat) (c : RGBA) :
    (Img.new m w h c).height = h := rfl

@[simp] lemma Img.new_px (m : Mode) (w h : Nat) (c : RGBA) (x y : Nat) :
    (Img.new m w h c).px x y = c := rfl

@[simp] lemma Img.resize_width (im : Img) (w h : Nat) :
    (im.resize w h).width = w := by
  unfold Img.resize; split
  case isTrue hc => exact hc.1
  case isFalse hc => rfl

@[simp] lemma Img.resize_height (im : Img) (w h : Nat) :
    (im.resize w h).height = h := by
  unfold Img.resize; split
  case isTrue hc => exact hc.2
  case isFalse hc => rfl

@[simp] lemma Img.resize_mode (im : Img) (w h : Nat) :
    (im.resize w h).mode = im.mode := by
  unfold Img.resize; split <;> rfl

@[simp] lemma Img.convert_mode (im : Img) (m : Mode) :
    (im.convert m).mode = m := by
  unfold Img.convert; split
  case isTrue hc => exact hc
  case isFalse hc => cases m <;> rfl

@[simp] lemma Img.alphaComposite_mode (d s : Img) :
    (d.alphaComposite s).mode = d.mode := rfl

@[simp] lemma Img.alphaComposite_width (d s : Img) :
    (d.alphaComposite s).width = d.width := rfl

@[simp] lemma Img.alphaComposite_height (d s : Img) :
    (d.alphaComposite s).height = d.height := rfl

@[simp] lemma Img.pasteCore_mode (d s : Img) (mb : Nat → Nat → Nat)
    (ox oy : Nat) : (d.pasteCore s mb ox oy).mode = d.mode := rfl

@[simp] lemma Img.pasteCore_width (d s : Img) (mb : Nat → Nat → Nat)
    (ox oy : Nat) : (d.pasteCore s mb ox oy).width = d.width := rfl

@[simp] lemma Img.pasteCore_height (d s : Img) (mb : Nat → Nat → Nat)
    (ox oy : Nat) : (d.pasteCore s mb ox oy).height = d.height := rfl

lemma Img.pasteCore_px_outside (d s : Img) (mb : Nat → Nat → Nat)
    (ox oy x y : Nat)
    (h : ¬ (ox ≤ x ∧ x < ox + s.width ∧ oy ≤ y ∧ y < oy + s.height)) :
    (d.pasteCore s mb ox oy).px x y = d.px x y := by
  simp only [Img.pasteCore, h, if_false]

lemma Img.pasteCore_px_inside (d s : Img) (mb : Nat → Nat → Nat)
    (ox oy x y : Nat)
    (h : ox ≤ x ∧ x < ox + s.width ∧ oy ≤ y ∧ y < oy + s.height) :
    (d.pasteCore s mb ox oy).px x y =
      ⟨blendChannel (d.px x y).r (s.px (x - ox) (y - oy)).r (mb (x - ox) (y - oy)),
       blendChannel (d.px x y).g (s.px (x - ox) (y - oy)).g (mb (x - ox) (y - oy)),
       blendChannel (d.px x y).b (s.px (x - ox) (y - oy)).b (mb (x - ox) (y - oy)),
       blendChannel (d.px x y).a (s.px (x - ox) (y - oy)).a (mb (x - ox) (y - oy))⟩ := by
  simp [Img.pasteCore, h]

lemma muldiv255_right_zero (a : Nat) : muldiv255 a 0 = 0 := by
  simp [muldiv255]

lemma muldiv255_right_255 (s : Nat) (h : s ≤ 255) : muldiv255 s 255 = s := by
  unfold muldiv255; omega

lemma blendChannel_mask255 (d s : Nat) (h : s ≤ 255) :
    blendChannel d s 255 = s := by
  unfold blendChannel
  rw [Nat.sub_self, muldiv255_right_zero, muldiv255_right_255 s h, Nat.zero_add]

lemma blendChannel_mask0 (d s : Nat) (h : d ≤ 255) :
    blendChannel d s 0 = d := by
  unfold blendChannel
  rw [Nat.sub_zero, muldiv255_right_255 d h, muldiv255_right_zero, Nat.add_zero]

lemma mulAddHalfDiv (v k : Nat) (hk : 0 < k) : (v * k + k / 2) / k = v := by
  rw [Nat.mul_comm, Nat.mul_add_div hk,
    Nat.div_eq_of_lt (Nat.div_lt_self hk (by norm_num)), Nat.add_zero]

lemma overPixel_transparent (c : RGBA) :
    overPixel c ⟨0, 0, 0, 0⟩ = if c.a = 0 then ⟨0, 0, 0, 0⟩ else c := by
  obtain ⟨r, g, b, a⟩ := c
  by_cases h : a = 0
  · simp [overPixel, h]
  · have hk : 0 < a * 255 := Nat.mul_pos (Nat.pos_of_ne_zero h) (by norm_num)
    simp only [overPixel, h, if_false]
    simp only [Nat.zero_mul, Nat.mul_zero, Nat.add_zero]
    have h1 : (r * a * 255 + a * 255 / 2) / (a * 255) = r := by
      simpa [Nat.mul_assoc] using mulAddHalfDiv r (a * 255) hk
    have h2 : (g * a * 255 + a * 255 / 2) / (a * 255) = g := by
      simpa [Nat.mul_assoc] using mulAddHalfDiv g (a * 255) hk
    have h3 : (b * a * 255 + a * 255 / 2) / (a * 255) = b := by
      simpa [Nat.mul_assoc] using mulAddHalfDiv b (a * 255) hk
    have h4 : (a * 255 + 127) / 255 = a := by omega
    simp [h1, h2, h3, h4]

/-! ## Pipeline-level lemmas -/

/-- The mask `create_icon` ends up with (`makeMask` never actually errors,
since the drawn box `(0, 0, n, n)` always passes Pillow's validation). -/
def maskImgOf (shape : Shape) (n r : Nat) : Img :=
  let blank := Img.new Mode.L n n ⟨0, 0, 0, 0⟩
  match shape with
  | Shape.rounded => roundedRectangleImg n r blank
  | Shape.circle => drawEllipse blank n

lemma makeMask_eq_ok (shape : Shape) (n r : Nat) :
    makeMask shape n r = Except.ok (maskImgOf shape n r) := by
  cases shape with
  | circle => rfl
  | rounded =>
      show roundedRectangleFilled n r _ = _
      unfold roundedRectangleFilled
      rw [if_neg (by omega : ¬ (n : Int) < 0)]
      rfl

/-- The canvas `create_icon` returns. -/
def composedIcon (source : Img) (p : IconParams) : Img :=
  (baseCanvas p).pasteRGBA
    (maskedWith source p (maskImgOf p.shape (innerPx p) p.radius))
    (centerOff p) (centerOff p)

lemma create_icon_eq_ok (source : Img) (p : IconParams) :
    create_icon source p = Except.ok (composedIcon source p) := by
  unfold create_icon maskedInner theMask
  rw [makeMask_eq_ok]
  rfl

@[simp] lemma baseCanvas_mode (p : IconParams) :
    (baseCanvas p).mode = Mode.RGBA := by
  unfold baseCanvas
  cases p.background <;> rfl

@[simp] lemma baseCanvas_width (p : IconParams) :
    (baseCanvas p).width = p.icon_px := by
  unfold baseCanvas
  cases p.background <;> rfl

@[simp] lemma baseCanvas_height (p : IconParams) :
    (baseCanvas p).height = p.icon_px := by
  unfold baseCanvas
  cases p.background <;> rfl

@[simp] lemma maskedWith_width (source : Img) (p : IconParams) (mask : Img) :
    (maskedWith source p mask).width = innerPx p := rfl

@[simp] lemma maskedWith_height (source : Img) (p : IconParams) (mask : Img) :
    (maskedWith source p mask).height = innerPx p := rfl

lemma roundedRectangleImg_full (n r : Nat) (h : n < 2 * r) (im : Img) :
    roundedRectangleImg n r im = drawEllipse im n := by
  unfold roundedRectangleImg
  rw [if_pos (by omega)]

lemma Img.Bounded.convert {im : Img} (hb : im.Bounded) (m : Mode) :
    (im.convert m).Bounded := by
  unfold Img.convert
  split
  · exact hb
  · cases m with
    | RGBA =>
        intro x y
        refine ⟨(hb x y).1, (hb x y).1, (hb x y).1, le_refl 255⟩
    | L =>
        intro x y
        have h := hb x y
        have hv : ((im.px x y).r * 299 + (im.px x y).g * 587 +
            (im.px x y).b * 114) / 1000 ≤ 255 := by omega
        exact ⟨hv, hv, hv, hv⟩

lemma Img.Bounded.resize {im : Img} (hb : im.Bounded) (w h : Nat) :
    (im.resize w h).Bounded := by
  unfold Img.resize
  split
  · exact hb
  · intro x y; exact hb _ _

lemma resizedInner_bounded {source : Img} (hb : source.Bounded)
    (p : IconParams) : (resizedInner source p).Bounded :=
  (hb.convert Mode.RGBA).resize _ _

lemma innerPx_eval (p : IconParams) (k : Nat)
    (h : ⌊(p.icon_px : ℚ) * p.scale⌋ = (k : Int)) : innerPx p = k := by
  unfold innerPx
  rw [h]
  exact Int.toNat_natCast k

/-! ## Claims about `create_icon` -/

/-- C1.  For every source image and every valid `IconParameters`
(`canvasPixels > 0`, `0 < innerScale ≤ 1`, `cornerRadius ≥ 0`),
`create_icon` returns a canvas whose width and height both equal
`canvasPixels` and whose pixel mode is RGBA. -/
theorem create_icon_square_rgba (source : Img) (p : IconParams)
    (_hv : p.Valid) :
    ∃ c, create_icon source p = Except.ok c ∧
      c.width = p.icon_px ∧ c.height = p.icon_px ∧ c.mode = Mode.RGBA :=
  ⟨composedIcon source p, create_icon_eq_ok source p,
   by simp [composedIcon, Img.pasteRGBA],
   by simp [composedIcon, Img.pasteRGBA],
   by simp [composedIcon, Img.pasteRGBA]⟩

theorem create_icon_square_rgba_witness :
    ∃ c, create_icon (Img.new Mode.RGBA 3 3 ⟨1, 2, 3, 255⟩)
        ⟨4, 86 / 100, 1, Shape.rounded, none⟩ = Except.ok c ∧
      c.width = 4 ∧ c.height = 4 ∧ c.mode = Mode.RGBA :=
  create_icon_square_rgba (Img.new Mode.RGBA 3 3 ⟨1, 2, 3, 255⟩)
    ⟨4, 86 / 100, 1, Shape.rounded, none⟩
    (by unfold IconParams.Valid; norm_num)

/-- C9.  `create_icon` is deterministic and side-effect-free: it is a pure
function of the source image and the parameter set (the embedding threads
no state whatsoever), so two calls on identical inputs return identical
canvases. -/
theorem create_icon_deterministic (s1 s2 : Img) (p1 p2 : IconParams)
    (hs : s1 = s2) (hp : p1 = p2) :
    create_icon s1 p1 = create_icon s2 p2 := by
  rw [hs, hp]

theorem create_icon_deterministic_witness :
    create_icon (Img.new Mode.RGBA 2 2 ⟨7, 7, 7, 200⟩)
        ⟨2, 1, 1, Shape.circle, none⟩ =
      create_icon (Img.new Mode.RGBA 2 2 ⟨7, 7, 7, 200⟩)
        ⟨2, 1, 1, Shape.circle, none⟩ :=
  create_icon_deterministic _ _ _ _ rfl rfl

/-- C7.  For every valid `IconParameters`, `create_icon` raises no error;
in particular, when `int(icon_px * scale) = 0` it returns the canvas
unmodified apart from the background fill (a background-only canvas)
instead of failing. -/
theorem create_icon_no_error_zero_inner (source : Img) (p : IconParams)
    (_hv : p.Valid) :
    ∃ c, create_icon source p = Except.ok c ∧
      (innerPx p = 0 → c = baseCanvas p) := by
  refine ⟨composedIcon source p, create_icon_eq_ok source p, fun h0 => ?_⟩
  unfold composedIcon Img.pasteRGBA
  refine Img.extEq rfl rfl rfl ?_
  funext x y
  apply Img.pasteCore_px_outside
  intro hc
  rw [maskedWith_width, h0] at hc
  omega

theorem create_icon_no_error_zero_inner_witness :
    ∃ c, create_icon (Img.new Mode.RGBA 8 8 ⟨1, 1, 1, 255⟩)
        ⟨3, 1 / 10, 5, Shape.circle, some ⟨9, 9, 9, 255⟩⟩ = Except.ok c ∧
      (innerPx ⟨3, 1 / 10, 5, Shape.circle, some ⟨9, 9, 9, 255⟩⟩ = 0 →
        c = baseCanvas ⟨3, 1 / 10, 5, Shape.circle, some ⟨9, 9, 9, 255⟩⟩) :=
  create_icon_no_error_zero_inner (Img.new Mode.RGBA 8 8 ⟨1, 1, 1, 255⟩)
    ⟨3, 1 / 10, 5, Shape.circle, some ⟨9, 9, 9, 255⟩⟩
    (by unfold IconParams.Valid; norm_num)

/-- C4.  For every valid `IconParameters`, `create_icon` resamples the
source to a square of side `inner_px = ⌊icon_px * scale⌋` and composites
the masked inner image onto the canvas at offset
`(icon_px - inner_px) / 2` (floor division) on both axes. -/
theorem create_icon_resample_center (source : Img) (p : IconParams)
    (_hv : p.Valid) :
    (resizedInner source p).width = (⌊(p.icon_px : ℚ) * p.scale⌋).toNat ∧
    (resizedInner source p).height = (⌊(p.icon_px : ℚ) * p.scale⌋).toNat ∧
    ∃ rounded, maskedInner source p = Except.ok rounded ∧
      create_icon source p = Except.ok ((baseCanvas p).pasteRGBA rounded
        ((p.icon_px - (⌊(p.icon_px : ℚ) * p.scale⌋).toNat) / 2)
        ((p.icon_px - (⌊(p.icon_px : ℚ) * p.scale⌋).toNat) / 2)) := by
  refine ⟨?_, ?_,
    ⟨maskedWith source p (maskImgOf p.shape (innerPx p) p.radius), ?_, ?_⟩⟩
  · exact Img.resize_width _ _ _
  · exact Img.resize_height _ _ _
  · unfold maskedInner theMask
    rw [makeMask_eq_ok]
    rfl
  · exact create_icon_eq_ok source p

theorem create_icon_resample_center_witness :
    (resizedInner (Img.new Mode.RGBA 9 9 ⟨0, 0, 0, 255⟩)
        ⟨5, 86 / 100, 2, Shape.rounded, none⟩).width =
      (⌊((5 : Nat) : ℚ) * (86 / 100 : ℚ)⌋).toNat ∧
    (resizedInner (Img.new Mode.RGBA 9 9 ⟨0, 0, 0, 255⟩)
        ⟨5, 86 / 100, 2, Shape.rounded, none⟩).height =
      (⌊((5 : Nat) : ℚ) * (86 / 100 : ℚ)⌋).toNat ∧
    ∃ rounded, maskedInner (Img.new Mode.RGBA 9 9 ⟨0, 0, 0, 255⟩)
        ⟨5, 86 / 100, 2, Shape.rounded, none⟩ = Except.ok rounded ∧
      create_icon (Img.new Mode.RGBA 9 9 ⟨0, 0, 0, 255⟩)
          ⟨5, 86 / 100, 2, Shape.rounded, none⟩ =
        Except.ok ((baseCanvas ⟨5, 86 / 100, 2, Shape.rounded, none⟩).pasteRGBA
          rounded ((5 - (⌊((5 : Nat) : ℚ) * (86 / 100 : ℚ)⌋).toNat) / 2)
          ((5 - (⌊((5 : Nat) : ℚ) * (86 / 100 : ℚ)⌋).toNat) / 2)) :=
  create_icon_resample_center (Img.new Mode.RGBA 9 9 ⟨0, 0, 0, 255⟩)
    ⟨5, 86 / 100, 2, Shape.rounded, none⟩
    (by unfold IconParams.Valid; norm_num)

/-- C8.  For every `cornerRadius` with `shapeKind = Rounded`, the mask is
built with the corner diameter clamped to the mask side: any radius
greater than half the inner dimension (`2 * radius > inner_px`) makes the
`rounded_rectangle` call degenerate to the very `ellipse` drawing the
`"circle"` shape performs — a full-circle mask — and never an error. -/
theorem rounded_radius_clamped (p : IconParams)
    (hs : p.shape = Shape.rounded) (hr : innerPx p < 2 * p.radius) :
    theMask p = Except.ok (drawEllipse
      (Img.new Mode.L (innerPx p) (innerPx p) ⟨0, 0, 0, 0⟩) (innerPx p)) ∧
    theMask p = makeMask Shape.circle (innerPx p) p.radius := by
  have h1 : theMask p = Except.ok (drawEllipse
      (Img.new Mode.L (innerPx p) (innerPx p) ⟨0, 0, 0, 0⟩) (innerPx p)) := by
    unfold theMask
    rw [hs]
    show roundedRectangleFilled (innerPx p) p.radius _ = _
    unfold roundedRectangleFilled
    rw [if_neg (by omega), roundedRectangleImg_full _ _ hr]
  exact ⟨h1, by rw [h1]; rfl⟩

theorem rounded_radius_clamped_witness :
    theMask ⟨4, 1, 3, Shape.rounded, none⟩ = Except.ok (drawEllipse
      (Img.new Mode.L (innerPx ⟨4, 1, 3, Shape.rounded, none⟩)
        (innerPx ⟨4, 1, 3, Shape.rounded, none⟩) ⟨0, 0, 0, 0⟩)
      (innerPx ⟨4, 1, 3, Shape.rounded, none⟩)) ∧
    theMask ⟨4, 1, 3, Shape.rounded, none⟩ =
      makeMask Shape.circle (innerPx ⟨4, 1, 3, Shape.rounded, none⟩) 3 :=
  rounded_radius_clamped ⟨4, 1, 3, Shape.rounded, none⟩ rfl
    (by rw [innerPx_eval ⟨4, 1, 3, Shape.rounded, none⟩ 4 (by norm_num)]
        decide)

/-- C2 (amended).  In `create_icon`, the masked inner image is produced by
`rounded.paste(img, mask=mask)` on a fully transparent base: where the
mask is 255 (inside the shape) the resampled source pixel is copied as is
— retaining the source pixel's own alpha, which the mask does not replace
— and where the mask is 0 (outside the shape) the pixel stays fully
transparent. -/
theorem masked_inner_copies_source (source : Img) (p : IconParams)
    (mask : Img) (hb : source.Bounded) (hm : theMask p = Except.ok mask)
    (x y : Nat) (hx : x < innerPx p) (hy : y < innerPx p) :
    maskedInner source p = Except.ok (maskedWith source p mask) ∧
    (mask.band x y = 255 →
      (maskedWith source p mask).px x y = (resizedInner source p).px x y) ∧
    (mask.band x y = 0 →
      (maskedWith source p mask).px x y = ⟨0, 0, 0, 0⟩) := by
  have hin : (0 : Nat) ≤ x ∧ x < 0 + (resizedInner source p).width ∧
      (0 : Nat) ≤ y ∧ y < 0 + (resizedInner source p).height := by
    simp [resizedInner, hx, hy]
  have hbi := resizedInner_bounded hb p x y
  refine ⟨by unfold maskedInner; rw [hm]; rfl, fun h255 => ?_, fun h0 => ?_⟩
  · unfold maskedWith Img.pasteL
    rw [Img.pasteCore_px_inside _ _ _ _ _ _ _ hin]
    simp only [Nat.sub_zero, Img.new_px]
    rw [h255]
    obtain ⟨h1, h2, h3, h4⟩ := hbi
    rw [blendChannel_mask255 _ _ h1, blendChannel_mask255 _ _ h2,
      blendChannel_mask255 _ _ h3, blendChannel_mask255 _ _ h4]
  · unfold maskedWith Img.pasteL
    rw [Img.pasteCore_px_inside _ _ _ _ _ _ _ hin]
    simp only [Nat.sub_zero, Img.new_px]
    rw [h0]
    rw [blendChannel_mask0 _ _ (by norm_num), blendChannel_mask0 _ _ (by norm_num),
      blendChannel_mask0 _ _ (by norm_num), blendChannel_mask0 _ _ (by norm_num)]

theorem masked_inner_copies_source_witness :
    maskedInner (Img.new Mode.RGBA 4 4 ⟨10, 20, 30, 128⟩)
        ⟨4, 1, 0, Shape.rounded, none⟩ =
      Except.ok (maskedWith (Img.new Mode.RGBA 4 4 ⟨10, 20, 30, 128⟩)
        ⟨4, 1, 0, Shape.rounded, none⟩ (maskImgOf Shape.rounded 4 0)) ∧
    ((maskImgOf Shape.rounded 4 0).band 1 1 = 255 →
      (maskedWith (Img.new Mode.RGBA 4 4 ⟨10, 20, 30, 128⟩)
          ⟨4, 1, 0, Shape.rounded, none⟩ (maskImgOf Shape.rounded 4 0)).px 1 1 =
        (resizedInner (Img.new Mode.RGBA 4 4 ⟨10, 20, 30, 128⟩)
          ⟨4, 1, 0, Shape.rounded, none⟩).px 1 1) ∧
    ((maskImgOf Shape.rounded 4 0).band 1 1 = 0 →
      (maskedWith (Img.new Mode.RGBA 4 4 ⟨10, 20, 30, 128⟩)
          ⟨4, 1, 0, Shape.rounded, none⟩ (maskImgOf Shape.rounded 4 0)).px 1 1 =
        ⟨0, 0, 0, 0⟩) :=
  masked_inner_copies_source (Img.new Mode.RGBA 4 4 ⟨10, 20, 30, 128⟩)
    ⟨4, 1, 0, Shape.rounded, none⟩ (maskImgOf Shape.rounded 4 0)
    (fun _ _ => ⟨by simp, by simp, by simp, by simp⟩)
    (by unfold theMask
        rw [innerPx_eval ⟨4, 1, 0, Shape.rounded, none⟩ 4 (by norm_num)]
        exact makeMask_eq_ok Shape.rounded 4 0)
    1 1
    (by rw [innerPx_eval ⟨4, 1, 0, Shape.rounded, none⟩ 4 (by norm_num)]; decide)
    (by rw [innerPx_eval ⟨4, 1, 0, Shape.rounded, none⟩ 4 (by norm_num)]; decide)

/-- C2 (counterexample).  The claim that inside the shape the mask gives
every pixel full alpha 255 regardless of the source pixel's own alpha is
false: a fully rounded-radius-0 mask is 255 at pixel `(1, 1)`, yet for a
constant source of alpha 128 the masked inner image carries alpha 128
there, not 255 — `Image.paste` copies the source alpha where the mask is
255 rather than replacing it with the mask value. -/
theorem masked_inner_alpha_counterexample :
    theMask ⟨4, 1, 0, Shape.rounded, none⟩ =
      Except.ok (maskImgOf Shape.rounded 4 0) ∧
    (maskImgOf Shape.rounded 4 0).band 1 1 = 255 ∧
    ((Img.new Mode.RGBA 4 4 ⟨10, 20, 30, 128⟩).px 1 1).a = 128 ∧
    maskedInner (Img.new Mode.RGBA 4 4 ⟨10, 20, 30, 128⟩)
        ⟨4, 1, 0, Shape.rounded, none⟩ =
      Except.ok (maskedWith (Img.new Mode.RGBA 4 4 ⟨10, 20, 30, 128⟩)
        ⟨4, 1, 0, Shape.rounded, none⟩ (maskImgOf Shape.rounded 4 0)) ∧
    ((maskedWith (Img.new Mode.RGBA 4 4 ⟨10, 20, 30, 128⟩)
        ⟨4, 1, 0, Shape.rounded, none⟩ (maskImgOf Shape.rounded 4 0)).px 1 1).a
      = 128 ∧ (128 : Nat) ≠ 255 := by
  have hi : innerPx ⟨4, 1, 0, Shape.rounded, none⟩ = 4 :=
    innerPx_eval _ 4 (by norm_num)
  have hmask : theMask ⟨4, 1, 0, Shape.rounded, none⟩ =
      Except.ok (maskImgOf Shape.rounded 4 0) := by
    unfold theMask
    rw [hi]
    exact makeMask_eq_ok Shape.rounded 4 0
  refine ⟨hmask, by decide, rfl, by unfold maskedInner; rw [hmask]; rfl, ?_,
    by decide⟩
  simp only [maskedWith, resizedInner, hi]
  decide

/-- C3 (amended).  When `background` is given, `create_icon` fills the
whole canvas with exactly the supplied RGBA colour — alpha included: the
fill is fully opaque only when the supplied alpha is 255, and a zero
supplied alpha leaves the canvas fully transparent — before the inner
image is composited; when `background` is `None`, every canvas pixel
outside the pasted inner box is fully transparent in the result. -/
theorem background_fill_or_transparent (p : IconParams) :
    (∀ c, p.background = some c →
      ∀ x y, (baseCanvas p).px x y =
        if c.a = 0 then ⟨0, 0, 0, 0⟩ else c) ∧
    (p.background = none → ∀ source x y,
      ¬ (centerOff p ≤ x ∧ x < centerOff p + innerPx p ∧
         centerOff p ≤ y ∧ y < centerOff p + innerPx p) →
      ∀ ans, create_icon source p = Except.ok ans →
        ans.px x y = ⟨0, 0, 0, 0⟩) := by
  constructor
  · intro c hc x y
    unfold baseCanvas
    rw [hc]
    exact overPixel_transparent c
  · intro hn source x y hout ans hans
    rw [create_icon_eq_ok] at hans
    have hans2 : composedIcon source p = ans := Except.ok.inj hans
    rw [← hans2]
    unfold composedIcon Img.pasteRGBA
    rw [Img.pasteCore_px_outside _ _ _ _ _ _ _ hout]
    unfold baseCanvas
    rw [hn]
    rfl

theorem background_fill_or_transparent_witness :
    (baseCanvas ⟨2, 1, 0, Shape.rounded, some ⟨1, 2, 3, 255⟩⟩).px 0 0 =
      ⟨1, 2, 3, 255⟩ ∧
    (composedIcon (Img.new Mode.RGBA 2 2 ⟨3, 3, 3, 255⟩)
      ⟨2, 1 / 2, 0, Shape.rounded, none⟩).px 1 1 = ⟨0, 0, 0, 0⟩ :=
  ⟨((background_fill_or_transparent
      ⟨2, 1, 0, Shape.rounded, some ⟨1, 2, 3, 255⟩⟩).1 ⟨1, 2, 3, 255⟩ rfl 0 0).trans
    (by decide),
   (background_fill_or_transparent ⟨2, 1 / 2, 0, Shape.rounded, none⟩).2 rfl
    (Img.new Mode.RGBA 2 2 ⟨3, 3, 3, 255⟩) 1 1
    (by unfold centerOff
        rw [innerPx_eval ⟨2, 1 / 2, 0, Shape.rounded, none⟩ 1 (by norm_num)]
        decide)
    (composedIcon (Img.new Mode.RGBA 2 2 ⟨3, 3, 3, 255⟩)
      ⟨2, 1 / 2, 0, Shape.rounded, none⟩)
    (create_icon_eq_ok _ _)⟩

/-- C3 (counterexample).  The claim that the canvas is filled with the
background colour at full opacity regardless of the supplied alpha is
false: with background `(5, 6, 7, 128)` the filled canvas carries alpha
128, and so does the out-of-inner-box region of the final composed
canvas — the requested alpha is composited through, not forced to 255. -/
theorem background_alpha_counterexample :
    (baseCanvas ⟨2, 1 / 2, 0, Shape.rounded, some ⟨5, 6, 7, 128⟩⟩).px 0 0 =
      ⟨5, 6, 7, 128⟩ ∧
    ((baseCanvas ⟨2, 1 / 2, 0, Shape.rounded, some ⟨5, 6, 7, 128⟩⟩).px 0 0).a
      ≠ 255 ∧
    create_icon (Img.new Mode.RGBA 2 2 ⟨0, 0, 0, 255⟩)
        ⟨2, 1 / 2, 0, Shape.rounded, some ⟨5, 6, 7, 128⟩⟩ =
      Except.ok (composedIcon (Img.new Mode.RGBA 2 2 ⟨0, 0, 0, 255⟩)
        ⟨2, 1 / 2, 0, Shape.rounded, some ⟨5, 6, 7, 128⟩⟩) ∧
    ((composedIcon (Img.new Mode.RGBA 2 2 ⟨0, 0, 0, 255⟩)
        ⟨2, 1 / 2, 0, Shape.rounded, some ⟨5, 6, 7, 128⟩⟩).px 1 1).a = 128 := by
  have hi : innerPx ⟨2, 1 / 2, 0, Shape.rounded, some ⟨5, 6, 7, 128⟩⟩ = 1 :=
    innerPx_eval _ 1 (by norm_num)
  refine ⟨by decide, by decide, create_icon_eq_ok _ _, ?_⟩
  simp only [composedIcon, maskedWith, resizedInner, centerOff, hi]
  decide

/-! ## Claims about `to_icns` -/

/-- C5 (amended).  `to_icns` fails with a `FileNotFoundError` when the
external converter cannot be located or executed — a kind distinct from
the error raised on a non-zero exit — and on a non-zero exit it fails
with a `RuntimeError` whose message carries the tool's exit code; the
tool's stdout and stderr are not captured (`subprocess.run` is invoked
without capturing), so they do not appear in the error. -/
theorem to_icns_error_kinds (iconset : String) (env : IcnsEnv) :
    (env.tool = ToolRun.launchFailure →
      to_icns iconset env =
        Except.error (PyError.fileNotFoundError "iconutil")) ∧
    (∀ code out err, env.tool = ToolRun.completed code out err →
      code ≠ 0 →
      to_icns iconset env =
        Except.error (PyError.runtimeError (conversionFailedMsg iconset code))) ∧
    (∀ m1 m2, PyError.fileNotFoundError m1 ≠ PyError.runtimeError m2) := by
  refine ⟨fun ht => ?_, fun code out err ht hc => ?_, fun m1 m2 => by simp⟩
  · unfold to_icns
    rw [ht]
    rfl
  · unfold to_icns
    rw [ht]
    obtain ⟨k, rfl⟩ := Nat.exists_eq_succ_of_ne_zero hc
    rfl

theorem to_icns_error_kinds_witness :
    to_icns "icons.iconset" ⟨ToolRun.launchFailure, false⟩ =
      Except.error (PyError.fileNotFoundError "iconutil") ∧
    to_icns "icons.iconset" ⟨ToolRun.completed 2 "out" "err", true⟩ =
      Except.error (PyError.runtimeError
        (conversionFailedMsg "icons.iconset" 2)) :=
  ⟨(to_icns_error_kinds "icons.iconset" ⟨ToolRun.launchFailure, false⟩).1 rfl,
   (to_icns_error_kinds "icons.iconset"
      ⟨ToolRun.completed 2 "out" "err", true⟩).2.1 2 "out" "err" rfl
      (by decide)⟩

/-- C5 (counterexample).  The claim that the error on a non-zero exit
carries the tool's captured stdout and stderr is false: `subprocess.run`
is called without capturing, so the raised error is identical whatever
the tool printed — it cannot carry the output. -/
theorem to_icns_output_not_captured :
    to_icns "icons.iconset"
        ⟨ToolRun.completed 1 "diagnostics A" "failure A", true⟩ =
      to_icns "icons.iconset"
        ⟨ToolRun.completed 1 "diagnostics B" "failure B", true⟩ ∧
    ("diagnostics A" : String) ≠ "diagnostics B" ∧
    ("failure A" : String) ≠ "failure B" :=
  ⟨rfl, by decide, by decide⟩

/-! ## Claims about `export_iconset` -/

lemma iconName_16 : iconName 16 = "icon_16x16.png" := rfl

lemma iconName_32 : iconName 32 = "icon_32x32.png" := rfl

lemma iconName_64 : iconName 64 = "icon_64x64.png" := rfl

lemma iconName_128 : iconName 128 = "icon_128x128.png" := rfl

lemma iconName_256 : iconName 256 = "icon_256x256.png" := rfl

lemma iconName_512 : iconName 512 = "icon_512x512.png" := rfl

lemma iconName_1024 : iconName 1024 = "icon_1024x1024.png" := rfl

lemma iconName2x_16 : iconName2x 16 = "icon_16x16@2x.png" := rfl

lemma iconName2x_32 : iconName2x 32 = "icon_32x32@2x.png" := rfl

lemma iconName2x_64 : iconName2x 64 = "icon_64x64@2x.png" := rfl

lemma iconName2x_128 : iconName2x 128 = "icon_128x128@2x.png" := rfl

lemma iconName2x_256 : iconName2x 256 = "icon_256x256@2x.png" := rfl

lemma iconName2x_512 : iconName2x 512 = "icon_512x512@2x.png" := rfl

lemma iconName2x_1024 : iconName2x 1024 = "icon_1024x1024@2x.png" := rfl

/-- The 14 manifest file names, in write order. -/
def manifestNames (dest : String) : List String :=
  ["icon_16x16.png", "icon_16x16@2x.png", "icon_32x32.png",
   "icon_32x32@2x.png", "icon_64x64.png", "icon_64x64@2x.png",
   "icon_128x128.png", "icon_128x128@2x.png", "icon_256x256.png",
   "icon_256x256@2x.png", "icon_512x512.png", "icon_512x512@2x.png",
   "icon_1024x1024.png", "icon_1024x1024@2x.png"].map (joinPath dest)

lemma iconsetWrites_fst (img : Img) (dest : String) :
    (iconsetWrites img dest).map Prod.fst = manifestNames dest := by
  simp only [iconsetWrites, APPLE_SIZES, manifestNames, List.flatMap_cons,
    List.flatMap_nil, List.map_cons, List.map_nil, List.cons_append,
    List.nil_append, iconName_16, iconName_32, iconName_64, iconName_128,
    iconName_256, iconName_512, iconName_1024, iconName2x_16, iconName2x_32,
    iconName2x_64, iconName2x_128, iconName2x_256, iconName2x_512,
    iconName2x_1024, List.append_nil]

lemma joinPath_injective (dest : String) :
    Function.Injective (joinPath dest) := by
  intro b c h
  unfold joinPath at h
  have hd := congrArg String.data h
  simp only [String.data_append] at hd
  exact String.ext (List.append_cancel_left hd)

lemma manifestNames_nodup (dest : String) : (manifestNames dest).Nodup := by
  unfold manifestNames
  apply List.Nodup.map (joinPath_injective dest)
  decide

lemma foldl_write_dirs (l : List (String × Img)) (fs : FS) :
    (l.foldl (fun acc pr => acc.write pr.1 pr.2) fs).dirs = fs.dirs := by
  induction l generalizing fs with
  | nil => rfl
  | cons hd tl ih => rw [List.foldl_cons, ih]; rfl

lemma foldl_write_files_not_mem (l : List (String × Img)) :
    ∀ (fs : FS) (name : String), name ∉ l.map Prod.fst →
    (l.foldl (fun acc pr => acc.write pr.1 pr.2) fs).files name =
      fs.files name := by
  induction l with
  | nil => intro fs name _; rfl
  | cons hd tl ih =>
      intro fs name h
      rw [List.map_cons, List.mem_cons, not_or] at h
      rw [List.foldl_cons, ih _ _ h.2]
      show (if name = hd.1 then some hd.2 else fs.files name) = fs.files name
      rw [if_neg h.1]

lemma foldl_write_files_mem (l : List (String × Img)) :
    ∀ (fs : FS) (name : String) (im : Img), (l.map Prod.fst).Nodup →
    (name, im) ∈ l →
    (l.foldl (fun acc pr => acc.write pr.1 pr.2) fs).files name = some im := by
  induction l with
  | nil => intro fs name im _ hm; cases hm
  | cons hd tl ih =>
      intro fs name im hnd hm
      rw [List.map_cons, List.nodup_cons] at hnd
      rw [List.foldl_cons]
      rcases List.mem_cons.mp hm with heq | htl
      · have hname : name ∉ tl.map Prod.fst := by
          rw [← heq] at hnd
          exact hnd.1
        rw [foldl_write_files_not_mem _ _ _ hname]
        show (if name = hd.1 then some hd.2 else fs.files name) = some im
        rw [← heq]
        simp
      · exact ih _ _ _ hnd.2 htl

/-- C6.  For every input canvas and destination directory,
`export_iconset` performs exactly 14 PNG writes, two per size in
`{16, 32, 64, 128, 256, 512, 1024}` named `icon_NxN.png` and
`icon_NxN@2x.png` in this fixed order, where the file named for size `s`
is resized to `s × s` and its `@2x` sibling to `2s × 2s`, independent of
the input canvas's own size; the destination directory is created
recursively if missing and is returned. -/
theorem export_iconset_manifest (img : Img) (dest : String) (fs : FS) :
    (iconsetWrites img dest).map
        (fun pr => (pr.1, pr.2.width, pr.2.height)) =
      [(joinPath dest "icon_16x16.png", 16, 16),
       (joinPath dest "icon_16x16@2x.png", 32, 32),
       (joinPath dest "icon_32x32.png", 32, 32),
       (joinPath dest "icon_32x32@2x.png", 64, 64),
       (joinPath dest "icon_64x64.png", 64, 64),
       (joinPath dest "icon_64x64@2x.png", 128, 128),
       (joinPath dest "icon_128x128.png", 128, 128),
       (joinPath dest "icon_128x128@2x.png", 256, 256),
       (joinPath dest "icon_256x256.png", 256, 256),
       (joinPath dest "icon_256x256@2x.png", 512, 512),
       (joinPath dest "icon_512x512.png", 512, 512),
       (joinPath dest "icon_512x512@2x.png", 1024, 1024),
       (joinPath dest "icon_1024x1024.png", 1024, 1024),
       (joinPath dest "icon_1024x1024@2x.png", 2048, 2048)] ∧
    (iconsetWrites img dest).length = 14 ∧
    (export_iconset img dest fs).2 = dest ∧
    dest ∈ (export_iconset img dest fs).1.dirs := by
  refine ⟨?_, rfl, rfl, ?_⟩
  · simp only [iconsetWrites, APPLE_SIZES, List.flatMap_cons, List.flatMap_nil,
      List.map_cons, List.map_nil, List.cons_append, List.nil_append,
      List.append_nil, iconName_16, iconName_32, iconName_64, iconName_128,
      iconName_256, iconName_512, iconName_1024, iconName2x_16, iconName2x_32,
      iconName2x_64, iconName2x_128, iconName2x_256, iconName2x_512,
      iconName2x_1024, Img.resize_width, Img.resize_height]
  · unfold export_iconset
    rw [foldl_write_dirs]
    unfold FS.mkdirP
    split
    case isTrue hmem => exact hmem
    case isFalse hmem => exact List.mem_cons_self dest fs.dirs

/-- C10.  `export_iconset` on a destination directory that already exists
does not fail and deletes nothing: the directory set is unchanged, every
pre-existing file whose name is not one of the 14 manifest names keeps its
exact previous content, and files at manifest names are overwritten with
the corresponding resize — so the directory may hold more than 14 files
afterwards. -/
theorem export_iconset_frame (img : Img) (dest : String) (fs : FS)
    (name : String) :
    (dest ∈ fs.dirs → (export_iconset img dest fs).1.dirs = fs.dirs) ∧
    (name ∉ manifestNames dest →
      (export_iconset img dest fs).1.files name = fs.files name) ∧
    (∀ im, (name, im) ∈ iconsetWrites img dest →
      (export_iconset img dest fs).1.files name = some im) := by
  refine ⟨fun hmem => ?_, fun hnot => ?_, fun im hm => ?_⟩
  · unfold export_iconset
    rw [foldl_write_dirs]
    unfold FS.mkdirP
    rw [if_pos hmem]
  · unfold export_iconset
    rw [foldl_write_files_not_mem _ _ _ (by rw [iconsetWrites_fst]; exact hnot)]
    rfl
  · unfold export_iconset
    exact foldl_write_files_mem _ _ _ _
      (by rw [iconsetWrites_fst]; exact manifestNames_nodup dest) hm

theorem export_iconset_frame_witness :
    (export_iconset (Img.new Mode.RGBA 1 1 ⟨0, 0, 0, 0⟩) "Out.iconset"
        ⟨["Out.iconset"],
         fun n => if n = "keep.txt"
           then some (Img.new Mode.L 1 1 ⟨0, 0, 0, 0⟩) else none⟩).1.dirs =
      ["Out.iconset"] ∧
    (export_iconset (Img.new Mode.RGBA 1 1 ⟨0, 0, 0, 0⟩) "Out.iconset"
        ⟨["Out.iconset"],
         fun n => if n = "keep.txt"
           then some (Img.new Mode.L 1 1 ⟨0, 0, 0, 0⟩) else none⟩).1.files
        "keep.txt" = some (Img.new Mode.L 1 1 ⟨0, 0, 0, 0⟩) :=
  ⟨(export_iconset_frame (Img.new Mode.RGBA 1 1 ⟨0, 0, 0, 0⟩) "Out.iconset"
      ⟨["Out.iconset"],
       fun n => if n = "keep.txt"
         then some (Img.new Mode.L 1 1 ⟨0, 0, 0, 0⟩) else none⟩
      "keep.txt").1 (by decide),
   ((export_iconset_frame (Img.new Mode.RGBA 1 1 ⟨0, 0, 0, 0⟩) "Out.iconset"
      ⟨["Out.iconset"],
       fun n => if n = "keep.txt"
         then some (Img.new Mode.L 1 1 ⟨0, 0, 0, 0⟩) else none⟩
      "keep.txt").2.1 (by decide)).trans (by simp)⟩
